import Mathlib

/-!
Verification of the MachUpHydro vortex-influence assembly and circulation
solver (machupX/scene.py) against its natural-language specification.

The numeric code is shallowly embedded over `ℚ`:
* 3-vectors are `Vec3` records of rationals; `np.cross`, `np.einsum`-dot,
  scalar multiplication and `np.true_divide` become the `cross3`, `dot3`,
  `v3smul` operations below.
* Euclidean magnitudes (`np.sqrt`, `np.linalg.norm`) are irrational in
  general, so wherever scene.py stores or computes a magnitude the
  embedding takes the magnitude as an explicit argument; theorems that
  depend on a magnitude being the genuine Euclidean norm carry an
  `IsEuclidNorm` hypothesis, discharged at concrete Pythagorean inputs.
* Float literals such as the hardcoded `1e-13` cutoff become the exact
  rationals they denote to double precision rounding (`1/10^13`).
-/

namespace MachUpHydro

/-- A 3-vector with rational components, standing for one `(3,)` slice of a
numpy array in scene.py. -/
structure Vec3 where
  x : ℚ
  y : ℚ
  z : ℚ
deriving DecidableEq

/-- Componentwise vector addition. -/
def v3add (a b : Vec3) : Vec3 := ⟨a.x + b.x, a.y + b.y, a.z + b.z⟩

/-- Componentwise vector subtraction. -/
def v3sub (a b : Vec3) : Vec3 := ⟨a.x - b.x, a.y - b.y, a.z - b.z⟩

/-- Componentwise negation. -/
def v3neg (a : Vec3) : Vec3 := ⟨-a.x, -a.y, -a.z⟩

/-- Scalar multiplication of a vector. -/
def v3smul (c : ℚ) (a : Vec3) : Vec3 := ⟨c * a.x, c * a.y, c * a.z⟩

/-- The zero vector. -/
def v3zero : Vec3 := ⟨0, 0, 0⟩

/-- Dot product, the embedding of the einsum contraction
`np.einsum(i j k, i j k -> i j)` applied at one index pair. -/
def dot3 (a b : Vec3) : ℚ := a.x * b.x + a.y * b.y + a.z * b.z

/-- Cross product, the embedding of `np.cross` at one index pair. -/
def cross3 (a b : Vec3) : Vec3 :=
  ⟨a.y * b.z - a.z * b.y, a.z * b.x - a.x * b.z, a.x * b.y - a.y * b.x⟩

/-- The statement that `n` is the Euclidean norm of `v`: nonnegative with
square equal to the dot product of `v` with itself.  This links a
magnitude argument of the embedding to `np.sqrt`/`np.linalg.norm` in the
source. -/
def IsEuclidNorm (v : Vec3) (n : ℚ) : Prop := 0 ≤ n ∧ n ^ 2 = dot3 v v

instance (v : Vec3) (n : ℚ) : Decidable (IsEuclidNorm v n) := by
  unfold IsEuclidNorm; infer_instance

/-- Biot–Savart-style influence of one finite vortex segment, the
expression shared by the bound segment (scene.py lines 620-622) and the
two jointed segments (lines 626-628 and 631-633): numerator
`(magA+magB) * cross(rA, rB)`, denominator `magA*magB*(magA*magB + rA.rB)`,
combined by `np.true_divide`. -/
def segmentInfluence (rA rB : Vec3) (magA magB : ℚ) : Vec3 :=
  let numer := v3smul (magA + magB) (cross3 rA rB)
  let denom := (magA * magB) * (magA * magB + dot3 rA rB)
  v3smul (1 / denom) numer

/-- Bound-segment influence tensor entry (scene.py lines 620-623): the
closed-form segment influence of the bound vortex of horseshoe `j` at
control point `i`, with the diagonal forced to exactly zero by
`V_ji_bound[np.diag_indices(N)] = 0.0`. -/
def boundInfluence {N : ℕ} (r0 r1 : Fin N → Fin N → Vec3)
    (r0mag r1mag : Fin N → Fin N → ℚ) (i j : Fin N) : Vec3 :=
  if i = j then v3zero
  else segmentInfluence (r0 i j) (r1 i j) (r0mag i j) (r1mag i j)

/-- Jointed inbound trailing-vortex influence (scene.py lines 626-628). -/
def joint0Influence {N : ℕ} (r0joint r0 : Fin N → Fin N → Vec3)
    (r0jointmag r0mag : Fin N → Fin N → ℚ) (i j : Fin N) : Vec3 :=
  segmentInfluence (r0joint i j) (r0 i j) (r0jointmag i j) (r0mag i j)

/-- Jointed outbound trailing-vortex influence (scene.py lines 631-633). -/
def joint1Influence {N : ℕ} (r1 r1joint : Fin N → Fin N → Vec3)
    (r1mag r1jointmag : Fin N → Fin N → ℚ) (i j : Fin N) : Vec3 :=
  segmentInfluence (r1 i j) (r1joint i j) (r1mag i j) (r1jointmag i j)

/-- The hardcoded denominator cutoff `1e-13` in the `np.where` guards of
scene.py lines 750 and 756. -/
def impingementCutoff : ℚ := 1 / 10 ^ 13

/-- The default value `1e-10` of the configurable solver parameter
`impingement_threshold` (scene.py line 86). -/
def defaultImpingementThreshold : ℚ := 1 / 10 ^ 10

/-- The trailing-leg denominator
`r_joint_mag * (r_joint_mag - u_trailing . r_joint)` from scene.py lines
747 and 753. -/
def trailingDenom (uTrail rJoint : Vec3) (rJointMag : ℚ) : ℚ :=
  rJointMag * (rJointMag - dot3 uTrail rJoint)

/-- Influence of the semi-infinite inbound trailing leg past the joint
(scene.py line 750): `np.where(denom0 > 1e-13, -cross(u, r_joint)/denom0, 0.0)`.
`np.nan_to_num` is the identity on the guarded branch since the quotient
there is finite. -/
def trailingInfluence0 (uTrail rJoint : Vec3) (rJointMag : ℚ) : Vec3 :=
  let denom := trailingDenom uTrail rJoint rJointMag
  if impingementCutoff < denom then v3smul (1 / denom) (v3neg (cross3 uTrail rJoint))
  else v3zero

/-- Influence of the semi-infinite outbound trailing leg past the joint
(scene.py line 756): `np.where(denom1 > 1e-13, cross(u, r_joint)/denom1, 0.0)`. -/
def trailingInfluence1 (uTrail rJoint : Vec3) (rJointMag : ℚ) : Vec3 :=
  let denom := trailingDenom uTrail rJoint rJointMag
  if impingementCutoff < denom then v3smul (1 / denom) (cross3 uTrail rJoint)
  else v3zero

/-- The condition under which scene.py lines 748-749 and 754-755 emit the
impingement warning: some entry of the denominator matrix has absolute
value below the configured threshold. -/
def impingementWarningTriggered {N : ℕ} (threshold : ℚ)
    (denoms : Fin N → Fin N → ℚ) : Prop :=
  ∃ i j : Fin N, |denoms i j| < threshold

instance {N : ℕ} (threshold : ℚ) (denoms : Fin N → Fin N → ℚ) :
    Decidable (impingementWarningTriggered threshold denoms) := by
  unfold impingementWarningTriggered; infer_instance

/-- The trailing-leg formula as the SPECIFICATION words it (spec section
4.2): the minus-sign (inbound) case of
`-(r_joint_mag + r_bound_mag) * (u_trailing x r_joint) /
(r_joint_mag * (r_joint_mag - u_trailing . r_joint))`.
Written from the spec text, for comparison with `trailingInfluence0`. -/
def specTrailingInfluence0 (uTrail rJoint : Vec3) (rJointMag rBoundMag : ℚ) : Vec3 :=
  v3smul (-(rJointMag + rBoundMag) / trailingDenom uTrail rJoint rJointMag)
    (cross3 uTrail rJoint)

/-- The plus-sign (outbound) case of the spec's trailing-leg formula. -/
def specTrailingInfluence1 (uTrail rJoint : Vec3) (rJointMag rBoundMag : ℚ) : Vec3 :=
  v3smul ((rJointMag + rBoundMag) / trailingDenom uTrail rJoint rJointMag)
    (cross3 uTrail rJoint)

/-- One entry of the linear-system matrix `A` built by `_solve_linear`
(scene.py lines 979-990): first `A[:,:]` is filled with
`-(Vmag*CLa*dS)[:,None] * einsum(V_ji, u_n)` using the in-plane magnitude
when `use_in_plane` is set and the plain freestream magnitude otherwise,
then `2*np.linalg.norm(cross(v_inf_and_rot, dl), axis=1)` is added on the
diagonal.  `normVrotXdl i` stands for the stored value of that norm; the
theorems tie it to the cross product via `IsEuclidNorm`. -/
def solveLinearA {N : ℕ} (useInPlane : Bool)
    (Vinf VinfInPlane CLa dS : Fin N → ℚ) (Vji : Fin N → Fin N → Vec3)
    (uN : Fin N → Vec3) (normVrotXdl : Fin N → ℚ) (i j : Fin N) : ℚ :=
  (if useInPlane then -(VinfInPlane i * CLa i * dS i) * dot3 (Vji i j) (uN i)
   else -(Vinf i * CLa i * dS i) * dot3 (Vji i j) (uN i))
  + (if i = j then 2 * normVrotXdl i else 0)

/-- One entry of the right-hand side `b` of `_solve_linear` (scene.py
lines 984 and 987): `Vmag*Vmag*dS*CL` with the branch-appropriate
magnitude, where `CL` holds the initial lift-coefficient estimate computed
at `alpha_inf`. -/
def solveLinearB {N : ℕ} (useInPlane : Bool)
    (Vinf VinfInPlane dS CL : Fin N → ℚ) (i : Fin N) : ℚ :=
  if useInPlane then VinfInPlane i * VinfInPlane i * dS i * CL i
  else Vinf i * Vinf i * dS i * CL i

/-- The circulation returned by `_solve_linear` (scene.py line 993):
one direct solve `np.linalg.solve(A, b)`.  The dense linear-algebra kernel
is abstracted as the argument `linSolve`. -/
def solveLinearGamma {N : ℕ}
    (linSolve : (Fin N → Fin N → ℚ) → (Fin N → ℚ) → (Fin N → ℚ))
    (useInPlane : Bool) (Vinf VinfInPlane CLa dS CL : Fin N → ℚ)
    (Vji : Fin N → Fin N → Vec3) (uN : Fin N → Vec3)
    (normVrotXdl : Fin N → ℚ) : Fin N → ℚ :=
  linSolve (solveLinearA useInPlane Vinf VinfInPlane CLa dS Vji uN normVrotXdl)
    (solveLinearB useInPlane Vinf VinfInPlane dS CL)

/-- The linear-system matrix as the SPECIFICATION words it (spec section
4.3): off-diagonal entries `-V_inf*CLa*dS*(V_ji.u_n)` and a diagonal
self-term `2*|V_inf x dl|` added to the diagonal entry, with `V_inf` the
freestream velocity throughout.  `normVinfXdl i` stands for
`|cross(v_inf, dl)|`.  Written from the spec text, for comparison with
`solveLinearA`. -/
def specLinearA {N : ℕ} (Vinf CLa dS : Fin N → ℚ) (Vji : Fin N → Fin N → Vec3)
    (uN : Fin N → Vec3) (normVinfXdl : Fin N → ℚ) (i j : Fin N) : ℚ :=
  -(Vinf i * CLa i * dS i) * dot3 (Vji i j) (uN i)
  + (if i = j then 2 * normVinfXdl i else 0)

/-- Swept chord: `_store_aircraft_properties` (scene.py lines 459-461)
multiplies the average chord by `np.cos(section_sweep)` when
`use_swept_sections` is set.  `cosSweep` stands for the cosine value. -/
def sweptChord (cBar cosSweep : ℚ) : ℚ := cBar * cosSweep

/-- The stored reciprocal `C_sweep_inv = 1/cos(section_sweep)` (scene.py
line 462). -/
def sweepInv (cosSweep : ℚ) : ℚ := 1 / cosSweep

/-- The in-place lift-coefficient sweep correction of
`_correct_CL_for_sweep` (scene.py lines 960-963):
`CL + CLa*(aL0 - aL0*C_sweep_inv)`. -/
def correct_CL_for_sweep (CL CLa aL0 CsweepInv : ℚ) : ℚ :=
  CL + CLa * (aL0 - aL0 * CsweepInv)

/-- The lift coefficient used by the residual's section-lift evaluation:
`_get_section_lift` calls `_correct_CL_for_sweep` when
`use_swept_sections` is set (scene.py lines 944-945) and leaves `CL`
untouched otherwise. -/
def residualSectionCL (useSwept : Bool) (CL CLa aL0 CsweepInv : ℚ) : ℚ :=
  if useSwept then correct_CL_for_sweep CL CLa aL0 CsweepInv else CL

/-- The stored section coefficients after the post-solve
force/moment-integration block has run. -/
structure IntegrationCoefs where
  CL : ℚ
  Cm : ℚ
  CD : ℚ
deriving DecidableEq

/-- Effect of `_integrate_forces_and_moments` on the stored section
coefficients (scene.py lines 1172-1192): the drag coefficient is
re-evaluated (at the unswept angle of attack and Reynolds number when
`use_swept_sections` is set — the fresh value arrives as `CDnew`), the
moment coefficient is re-evaluated (arriving as `CmNew`) and then scaled
by `C_sweep_inv` when `use_swept_sections` is set (line 1192), and the
stored lift coefficient is not recomputed or corrected anywhere in the
integration. -/
def integrationSweepCoefs (useSwept : Bool) (CL CmNew CDnew CsweepInv : ℚ) :
    IntegrationCoefs :=
  { CL := CL
    Cm := if useSwept then CmNew * CsweepInv else CmNew
    CD := CDnew }

/-- The invariant tensor piece `V_ji_const = V_ji_bound + V_ji_joint_0 +
V_ji_joint_1` (scene.py line 656), at one index pair. -/
def vjiConstEntry (bound j0 j1 : Vec3) : Vec3 := v3add (v3add bound j0) j1

/-- Final influence-tensor assembly of `_calc_invariant_flow_properties`
(scene.py lines 776-784): real trailing legs plus the invariant piece,
plus the image set when a free surface is present with the biplane
boundary condition, minus the image set when a free surface is present
without it (rigid-wall approximation), and the real terms alone with no
free surface.  `fourPiInv` stands for the float `1/(4*np.pi)`. -/
def completeVjiEntry (hasFS biplaneBC : Bool) (fourPiInv : ℚ)
    (due0 vconst due1 due0img vconstimg due1img : Vec3) : Vec3 :=
  if hasFS && biplaneBC then
    v3smul fourPiInv
      (v3add (v3add (v3add due0 vconst) due1)
        (v3add (v3add due0img vconstimg) due1img))
  else if hasFS && !biplaneBC then
    v3smul fourPiInv
      (v3sub (v3add (v3add due0 vconst) due1)
        (v3add (v3add due0img vconstimg) due1img))
  else
    v3smul fourPiInv (v3add (v3add due0 vconst) due1)

/-- The final stored tensor entry including the experimental wave
correction (scene.py lines 786-797): when `use_wave_corrections` is set,
`1/(4*pi)` times a diagonal-only z-component wave term (`wave i`, whose
Bessel-function value is taken as an input) is added on top of the
assembly of lines 776-784. -/
def calcVjiEntry {N : ℕ} (hasFS biplaneBC useWave : Bool) (fourPiInv : ℚ)
    (due0 vconst due1 due0img vconstimg due1img : Fin N → Fin N → Vec3)
    (wave : Fin N → ℚ) (i j : Fin N) : Vec3 :=
  let base := completeVjiEntry hasFS biplaneBC fourPiInv (due0 i j) (vconst i j)
    (due1 i j) (due0img i j) (vconstimg i j) (due1img i j)
  if useWave then
    (if i = j then v3add base (v3smul fourPiInv ⟨0, 0, wave i⟩) else v3add base v3zero)
  else base

/-- Negation of a circulation vector, `-R` in scene.py line 1062. -/
def qvNeg (v : List ℚ) : List ℚ := v.map (fun a => -a)

/-- Componentwise sum of circulation vectors. -/
def qvAdd (a b : List ℚ) : List ℚ := List.zipWith (fun u v => u + v) a b

/-- Scalar multiple of a circulation vector. -/
def qvSmul (c : ℚ) (v : List ℚ) : List ℚ := v.map (fun a => c * a)

/-- Euclidean norm of a one-dimensional residual vector: for `[x]` the
value of `np.linalg.norm` is `|x|`, which is rational; used to instantiate
the solver's norm oracle exactly on single-control-point scenes. -/
def norm1d (v : List ℚ) : ℚ := |v.headI|

/-- Payload of the `SolverNotConvergedError` raised at scene.py line 1074.
The exception class itself lives outside scene.py; the call site passes
exactly two values, the solver type string and the final residual norm,
so it is modelled as this pair. -/
structure NotConvergedPayload where
  solverType : String
  finalError : ℚ
deriving DecidableEq

/-- Result marker of one nonlinear solve.  `fuelOut` is an artifact of the
fuel-indexed encoding of the `while` loop and is never produced when the
fuel exceeds the remaining iteration budget (see `nlLoopF_no_fuelOut`). -/
inductive NLResult where
  | converged : NLResult
  | notConverged : NotConvergedPayload → NLResult
  | fuelOut : NLResult
deriving DecidableEq

/-- State returned by the nonlinear solver loop: the current circulation
vector `self._gamma`, the iteration counter, and how the loop ended. -/
structure NLOutcome where
  gamma : List ℚ
  iters : ℕ
  result : NLResult

/-- Configuration and oracles of `_solve_nonlinear`:
`residual` is `_lifting_line_residual`; `jacSolve gamma r` is
`np.linalg.solve(J, r)` with the analytic Jacobian `J` assembled at
`gamma` (scene.py lines 1033-1062); `normFn` is `np.linalg.norm`;
`conv`, `relax`, `maxIter` and `solverType` are the stored solver
parameters (scene.py lines 76-79). -/
structure NLConfig where
  residual : List ℚ → List ℚ
  jacSolve : List ℚ → List ℚ → List ℚ
  normFn : List ℚ → ℚ
  conv : ℚ
  relax : ℚ
  maxIter : ℕ
  solverType : String

/-- The `while error > self._solver_convergence` loop of `_solve_nonlinear`
(scene.py lines 1017-1079), fuel-indexed so that it is structurally
recursive.  Each pass increments the iteration counter, evaluates the
residual and its norm, solves for the Newton step, applies
`gamma + relaxation * dGamma`, and then — still inside the loop body —
raises `SolverNotConvergedError(solver_type, error)` with the residual
norm recomputed at the updated gamma once the counter reaches
`max_iterations`.  A normal exit (previous error not above the tolerance)
reports convergence with the current gamma. -/
def nlLoopF (cfg : NLConfig) : ℕ → List ℚ → ℚ → ℕ → NLOutcome
  | 0, gamma, _, iteration => { gamma := gamma, iters := iteration, result := .fuelOut }
  | fuel + 1, gamma, error, iteration =>
    if cfg.conv < error then
      let iter2 := iteration + 1
      let R := cfg.residual gamma
      let err := cfg.normFn R
      let dGamma := cfg.jacSolve gamma (qvNeg R)
      let gamma2 := qvAdd gamma (qvSmul cfg.relax dGamma)
      if cfg.maxIter ≤ iter2 then
        { gamma := gamma2, iters := iter2,
          result := .notConverged
            { solverType := cfg.solverType,
              finalError := cfg.normFn (cfg.residual gamma2) } }
      else nlLoopF cfg fuel gamma2 err iter2
    else { gamma := gamma, iters := iteration, result := .converged }

/-- Entry point of `_solve_nonlinear`: the loop starts at `iteration = 0`
with the sentinel `error = 100` (scene.py lines 1017-1018).  The fuel
`maxIter + 1` strictly exceeds the number of passes the loop can make. -/
def solveNonlinear (cfg : NLConfig) (gamma0 : List ℚ) : NLOutcome :=
  nlLoopF cfg (cfg.maxIter + 1) gamma0 100 0

/-- The Newton iterates as a recurrence: `gamma_(k+1) = gamma_k +
relaxation * jacSolve(gamma_k, -residual(gamma_k))`, the update of
scene.py lines 1062-1065. -/
def nlGammaSeq (cfg : NLConfig) (gamma0 : List ℚ) : ℕ → List ℚ
  | 0 => gamma0
  | k + 1 =>
    let g := nlGammaSeq cfg gamma0 k
    qvAdd g (qvSmul cfg.relax (cfg.jacSolve g (qvNeg (cfg.residual g))))

/-- Residual norm at the k-th Newton iterate. -/
def nlErr (cfg : NLConfig) (gamma0 : List ℚ) (k : ℕ) : ℚ :=
  cfg.normFn (cfg.residual (nlGammaSeq cfg gamma0 k))

/-- Errors handled by the scene.  The exception classes live outside
scene.py; each is modelled by the data its scene.py call site passes:
`solverNotConverged` by `NotConvergedPayload` (line 1074), the airfoil
database bounds error by its message, and plain non-custom exceptions
(such as `RuntimeError`) by their message. -/
inductive MUError where
  | solverNotConverged : NotConvergedPayload → MUError
  | databaseBounds : String → MUError
  | runtime : String → MUError
deriving DecidableEq

/-- The error-policy dictionary built by `set_err_state` (scene.py lines
3950-3953): exactly the two keys `not_converged` and `database_bounds`,
each defaulting to `raise`. -/
def set_err_state (notConvergedArg databaseBoundsArg : Option String) :
    List (String × String) :=
  [("not_converged", notConvergedArg.getD "raise"),
   ("database_bounds", databaseBoundsArg.getD "raise")]

/-- The error-policy state as consumed by `_handle_error`: the two entries
of the dictionary built by `set_err_state`. -/
structure ErrState where
  notConvergedPolicy : String
  databaseBoundsPolicy : String
deriving DecidableEq

/-- How `_handle_error` disposed of an error: re-raised, turned into a
warning (execution continues), or ignored (execution continues silently). -/
inductive HandleOutcome where
  | raised : MUError → HandleOutcome
  | warned : MUError → HandleOutcome
  | ignored : HandleOutcome
deriving DecidableEq

/-- The instruction dispatch of `_handle_error` (scene.py lines 3973-3981):
`raise` re-raises, `warn` warns with the error, `ignore` returns, and any
other string raises a `RuntimeError`. -/
def handleByInstruction (instruction : String) (e : MUError) : HandleOutcome :=
  if instruction = "raise" then .raised e
  else if instruction = "warn" then .warned e
  else if instruction = "ignore" then .ignored
  else .raised (.runtime
    ("MachUpX got an incorrect error handling instruction. "
      ++ instruction ++ " is invalid."))

/-- `_handle_error` (scene.py lines 3961-3981): a
`SolverNotConvergedError` is dispatched under the `not_converged` policy,
a `DatabaseBoundsError` under the `database_bounds` policy, and every
other exception is re-raised unconditionally. -/
def handle_error (st : ErrState) (e : MUError) : HandleOutcome :=
  match e with
  | .solverNotConverged _ => handleByInstruction st.notConvergedPolicy e
  | .databaseBounds _ => handleByInstruction st.databaseBoundsPolicy e
  | .runtime _ => .raised e

/-- The nonlinear-solve slice of `solve_forces` (scene.py lines 1641-1661):
run `_solve_nonlinear`; if it raises the not-converged error, dispose of it
via `_handle_error` — under `raise` the error propagates, under `warn` a
warning is recorded and execution continues with the last computed gamma,
under `ignore` execution continues silently with the last computed gamma. -/
def solveForcesNonlinear (st : ErrState) (cfg : NLConfig) (gamma0 : List ℚ) :
    Except MUError (List ℚ × List MUError) :=
  let out := solveNonlinear cfg gamma0
  match out.result with
  | .notConverged p =>
    match handle_error st (.solverNotConverged p) with
    | .raised e => .error e
    | .warned e => .ok (out.gamma, [e])
    | .ignored => .ok (out.gamma, [])
  | _ => .ok (out.gamma, [])

/-- Scene-level aircraft bookkeeping (scene.py lines 42-44): the ordered
dictionary `self._airplanes` with each `Airplane` object abstracted to its
control-point count `get_num_cps()`, the total control-point count
`self._N`, and `self._num_aircraft`. -/
structure SceneState where
  airplanes : List (String × ℤ)
  N : ℤ
  numAircraft : ℤ
deriving DecidableEq

/-- `dict.pop` on the ordered aircraft dictionary: `none` when the key is
missing (the `KeyError` case), otherwise the popped aircraft's
control-point count together with the remaining dictionary. -/
def popAircraft : List (String × ℤ) → String → Option (ℤ × List (String × ℤ))
  | [], _ => none
  | (k, v) :: rest, name =>
    if k = name then some (v, rest)
    else
      match popAircraft rest name with
      | none => none
      | some (v2, rest2) => some (v2, (k, v) :: rest2)

/-- `remove_aircraft` (scene.py lines 313-336): `pop` the named aircraft;
on `KeyError` raise `RuntimeError` with the scene untouched; on success
decrement `self._N` by the removed aircraft's `get_num_cps()` and
`self._num_aircraft` by one.  The result pairs the scene state after the
call with the raised error message, if any. -/
def remove_aircraft (s : SceneState) (name : String) : SceneState × Option String :=
  match popAircraft s.airplanes name with
  | none => (s, some ("The scene has no aircraft named " ++ name ++ "."))
  | some (cps, rest) =>
    ({ airplanes := rest, N := s.N - cps, numAircraft := s.numAircraft - 1 }, none)

/-- The message of the `RuntimeError` raised by `solve_forces` on an empty
scene (scene.py line 1616). -/
def noAircraftMsg : String :=
  "There are no aircraft in this scene. No calculations can be performed."

/-- The empty-scene guard of `solve_forces` (scene.py lines 1614-1616):
with no aircraft a `RuntimeError` is raised before anything else runs;
the whole solving-and-integration pipeline after the guard is abstracted
as the argument `pipeline`. -/
def solve_forces (s : SceneState) (pipeline : SceneState → List ℚ) :
    Except String (List ℚ) :=
  if s.numAircraft = 0 then .error noAircraftMsg
  else .ok (pipeline s)

/-- A one-control-point solver instance whose lifting-line residual is
identically zero (the initial circulation already satisfies the equation)
but whose iteration budget is a single pass: `max_iterations = 1`,
tolerance `1/2`, relaxation 1.  The Jacobian-solve oracle returns its
right-hand side; the norm oracle is the exact Euclidean norm for
one-dimensional vectors. -/
def cfgImmediate : NLConfig :=
  { residual := fun _ => [0], jacSolve := fun _ r => r, normFn := norm1d,
    conv := 1 / 2, relax := 1, maxIter := 1, solverType := "nonlinear" }

/-- A one-control-point solver instance that converges on the second pass:
the residual equals the circulation itself, so the first Newton step
(with the Jacobian-solve oracle returning its right-hand side) lands on
the zero of the residual. -/
def cfgConverging : NLConfig :=
  { residual := fun g => g, jacSolve := fun _ r => r, normFn := norm1d,
    conv := 1 / 2, relax := 1, maxIter := 3, solverType := "nonlinear" }

/-- A one-control-point solver instance whose residual is constantly `[1]`
(never below the tolerance `1/2`) and whose Newton step is zero, with
`max_iterations = 1`. -/
def cfgStalled : NLConfig :=
  { residual := fun _ => [1], jacSolve := fun _ _ => [0], normFn := norm1d,
    conv := 1 / 2, relax := 1, maxIter := 1, solverType := "nonlinear" }

/-- The same stalled instance with `max_iterations = 2`. -/
def cfgStalled2 : NLConfig :=
  { residual := fun _ => [1], jacSolve := fun _ _ => [0], normFn := norm1d,
    conv := 1 / 2, relax := 1, maxIter := 2, solverType := "nonlinear" }

/-- Two vectors with equal components are equal. -/
theorem v3ext (a b : Vec3) (hx : a.x = b.x) (hy : a.y = b.y) (hz : a.z = b.z) :
    a = b := by
  cases a; cases b; simp_all

/-- C1 (amended): the semi-infinite trailing-leg contribution added when
completing the influence tensor equals
`∓(u_trailing x r_joint) / (r_joint_mag * (r_joint_mag - u_trailing . r_joint))`
— with no `(r_joint_mag + r_bound_mag)` factor in the numerator — with the
minus sign for the inbound (0) leg and the plus sign for the outbound (1)
leg, whenever the denominator exceeds the hardcoded `1e-13` cutoff. -/
theorem C1_trailing_leg_formula (uTrail rJoint : Vec3) (rJointMag : ℚ)
    (h : impingementCutoff < trailingDenom uTrail rJoint rJointMag) :
    trailingInfluence0 uTrail rJoint rJointMag
      = v3smul (-(1 / trailingDenom uTrail rJoint rJointMag)) (cross3 uTrail rJoint) ∧
    trailingInfluence1 uTrail rJoint rJointMag
      = v3smul (1 / trailingDenom uTrail rJoint rJointMag) (cross3 uTrail rJoint) := by
  constructor
  · simp only [trailingInfluence0, if_pos h]
    apply v3ext <;> simp only [v3smul, v3neg] <;> ring
  · simp only [trailingInfluence1, if_pos h]

/-- C1 witness: the amended trailing-leg formula evaluated at the concrete
geometry `u_trailing = (1,0,0)`, `r_joint = (0,3,4)`, `r_joint_mag = 5`. -/
theorem C1_trailing_leg_witness :
    impingementCutoff < trailingDenom ⟨1, 0, 0⟩ ⟨0, 3, 4⟩ 5 ∧
    (trailingInfluence0 ⟨1, 0, 0⟩ ⟨0, 3, 4⟩ 5
       = v3smul (-(1 / trailingDenom ⟨1, 0, 0⟩ ⟨0, 3, 4⟩ 5)) (cross3 ⟨1, 0, 0⟩ ⟨0, 3, 4⟩) ∧
     trailingInfluence1 ⟨1, 0, 0⟩ ⟨0, 3, 4⟩ 5
       = v3smul (1 / trailingDenom ⟨1, 0, 0⟩ ⟨0, 3, 4⟩ 5) (cross3 ⟨1, 0, 0⟩ ⟨0, 3, 4⟩)) :=
  ⟨by norm_num [trailingDenom, dot3, impingementCutoff],
   C1_trailing_leg_formula ⟨1, 0, 0⟩ ⟨0, 3, 4⟩ 5
     (by norm_num [trailingDenom, dot3, impingementCutoff])⟩

/-- C1 counterexample: at `u_trailing = (1,0,0)`, `r_joint = (0,3,4)` (a
genuine Euclidean magnitude of 5) and a bound-leg magnitude of 2 (the
genuine magnitude of `(0,2,0)`), the code's trailing-leg contributions
differ from the spec's formula, which carries an extra
`(r_joint_mag + r_bound_mag)` factor in the numerator. -/
theorem C1_spec_formula_counterexample :
    impingementCutoff < trailingDenom ⟨1, 0, 0⟩ ⟨0, 3, 4⟩ 5 ∧
    IsEuclidNorm ⟨0, 3, 4⟩ 5 ∧
    IsEuclidNorm ⟨0, 2, 0⟩ 2 ∧
    trailingInfluence0 ⟨1, 0, 0⟩ ⟨0, 3, 4⟩ 5
      ≠ specTrailingInfluence0 ⟨1, 0, 0⟩ ⟨0, 3, 4⟩ 5 2 ∧
    trailingInfluence1 ⟨1, 0, 0⟩ ⟨0, 3, 4⟩ 5
      ≠ specTrailingInfluence1 ⟨1, 0, 0⟩ ⟨0, 3, 4⟩ 5 2 := by
  refine ⟨?_, ?_, ?_, ?_, ?_⟩
  · norm_num [trailingDenom, dot3, impingementCutoff]
  · exact ⟨by norm_num, by norm_num [dot3]⟩
  · exact ⟨by norm_num, by norm_num [dot3]⟩
  · norm_num [trailingInfluence0, specTrailingInfluence0, trailingDenom, dot3,
      cross3, v3smul, v3neg, impingementCutoff, Vec3.mk.injEq]
  · norm_num [trailingInfluence1, specTrailingInfluence1, trailingDenom, dot3,
      cross3, v3smul, impingementCutoff, Vec3.mk.injEq]

/-- C2: the bound-segment influence assembled by the geometry calculation
equals `(|r0|+|r1|) * (r0 x r1)` divided by
`|r0||r1| * (|r0||r1| + r0.r1)` off the diagonal, and the self-influence
entry `[i,i]` is exactly the zero vector for every `i` and every scene
size `N`. -/
theorem C2_bound_influence {N : ℕ} (r0 r1 : Fin N → Fin N → Vec3)
    (r0mag r1mag : Fin N → Fin N → ℚ) (i j : Fin N) (hij : i ≠ j)
    (hden : (r0mag i j * r1mag i j)
        * (r0mag i j * r1mag i j + dot3 (r0 i j) (r1 i j)) ≠ 0) :
    boundInfluence r0 r1 r0mag r1mag i j
      = v3smul ((r0mag i j + r1mag i j)
          / ((r0mag i j * r1mag i j)
              * (r0mag i j * r1mag i j + dot3 (r0 i j) (r1 i j))))
          (cross3 (r0 i j) (r1 i j)) ∧
    (∀ k : Fin N, boundInfluence r0 r1 r0mag r1mag k k = v3zero) := by
  refine ⟨?_, fun k => by simp [boundInfluence]⟩
  simp only [boundInfluence, if_neg hij, segmentInfluence]
  apply v3ext <;> simp only [v3smul] <;> ring

/-- C2 witness: the bound-influence formula and the diagonal-zero
invariant evaluated on a concrete two-point scene with unit node vectors
`r0 = (1,0,0)`, `r1 = (0,1,0)` and unit magnitudes. -/
theorem C2_bound_influence_witness :
    ((0 : Fin 2) ≠ 1) ∧
    (((1 : ℚ) * 1) * (1 * 1 + dot3 ⟨1, 0, 0⟩ ⟨0, 1, 0⟩) ≠ 0) ∧
    (boundInfluence (fun _ _ => ⟨1, 0, 0⟩) (fun _ _ => ⟨0, 1, 0⟩)
        (fun _ _ => 1) (fun _ _ => 1) (0 : Fin 2) (1 : Fin 2)
      = v3smul (((1 : ℚ) + 1) / ((1 * 1) * (1 * 1 + dot3 ⟨1, 0, 0⟩ ⟨0, 1, 0⟩)))
          (cross3 ⟨1, 0, 0⟩ ⟨0, 1, 0⟩) ∧
     (∀ k : Fin 2, boundInfluence (fun _ _ => ⟨1, 0, 0⟩) (fun _ _ => ⟨0, 1, 0⟩)
        (fun _ _ => 1) (fun _ _ => 1) k k = v3zero)) :=
  ⟨by decide, by norm_num [dot3],
   C2_bound_influence (fun _ _ => ⟨1, 0, 0⟩) (fun _ _ => ⟨0, 1, 0⟩)
     (fun _ _ => 1) (fun _ _ => 1) 0 1 (by decide) (by norm_num [dot3])⟩

/-- C5 (amended): a trailing-leg term is zeroed exactly by the hardcoded
`1e-13` cutoff of the `np.where` guard, not by the configurable
impingement threshold (default `1e-10`, strictly above the cutoff), so a
denominator below the threshold but above the cutoff warns yet keeps its
nonzero finite value; the policy dictionary built by `set_err_state` has
only the keys `not_converged` and `database_bounds`, and `_handle_error`
re-raises every error that is not one of those two custom kinds, so the
impingement warning is not subject to the configurable error policy. -/
theorem C5_impingement_zeroing (uTrail rJoint : Vec3) (rJointMag : ℚ)
    (hz : trailingDenom uTrail rJoint rJointMag ≤ impingementCutoff) :
    trailingInfluence0 uTrail rJoint rJointMag = v3zero ∧
    trailingInfluence1 uTrail rJoint rJointMag = v3zero ∧
    impingementCutoff < defaultImpingementThreshold ∧
    (∀ nc db : Option String,
      (set_err_state nc db).map Prod.fst = ["not_converged", "database_bounds"]) ∧
    (∀ (st : ErrState) (msg : String),
      handle_error st (.runtime msg) = .raised (.runtime msg)) := by
  refine ⟨?_, ?_, by norm_num [impingementCutoff, defaultImpingementThreshold],
    fun nc db => rfl, fun st msg => rfl⟩
  · simp only [trailingInfluence0, if_neg (not_lt.mpr hz)]
  · simp only [trailingInfluence1, if_neg (not_lt.mpr hz)]

/-- C5 witness: a degenerate geometry with the control point exactly on
the trailing ray (`u_trailing = (1,0,0)`, `r_joint = (2,0,0)`) gives a
zero denominator, and the term evaluates to exactly zero. -/
theorem C5_impingement_zeroing_witness :
    trailingDenom ⟨1, 0, 0⟩ ⟨2, 0, 0⟩ 2 ≤ impingementCutoff ∧
    (trailingInfluence0 ⟨1, 0, 0⟩ ⟨2, 0, 0⟩ 2 = v3zero ∧
     trailingInfluence1 ⟨1, 0, 0⟩ ⟨2, 0, 0⟩ 2 = v3zero ∧
     impingementCutoff < defaultImpingementThreshold ∧
     (∀ nc db : Option String,
       (set_err_state nc db).map Prod.fst = ["not_converged", "database_bounds"]) ∧
     (∀ (st : ErrState) (msg : String),
       handle_error st (.runtime msg) = .raised (.runtime msg))) :=
  ⟨by norm_num [trailingDenom, dot3, impingementCutoff],
   C5_impingement_zeroing ⟨1, 0, 0⟩ ⟨2, 0, 0⟩ 2
     (by norm_num [trailingDenom, dot3, impingementCutoff])⟩

/-- C5 counterexample: the scaled 3-4-5 geometry
`r_joint = (3e-6, 4e-6, 0)` (genuine Euclidean magnitude `5e-6`) with
`u_trailing = (1,0,0)` has denominator `1e-11`, below the default
impingement threshold `1e-10` — so the warning fires — yet above the
hardcoded `1e-13` cutoff, so the influence contribution is not zeroed
(it is the large finite vector `(0, 0, -400000)`), refuting the claim
that every below-threshold geometry produces an exactly-zero term. -/
theorem C5_threshold_counterexample :
    |trailingDenom ⟨1, 0, 0⟩ ⟨3 / 1000000, 4 / 1000000, 0⟩ (5 / 1000000)|
      < defaultImpingementThreshold ∧
    IsEuclidNorm ⟨3 / 1000000, 4 / 1000000, 0⟩ (5 / 1000000) ∧
    trailingInfluence0 ⟨1, 0, 0⟩ ⟨3 / 1000000, 4 / 1000000, 0⟩ (5 / 1000000)
      ≠ v3zero := by
  refine ⟨?_, ⟨by norm_num, by norm_num [dot3]⟩, ?_⟩
  · rw [abs_lt]
    constructor <;> norm_num [trailingDenom, dot3, defaultImpingementThreshold]
  · norm_num [trailingInfluence0, trailingDenom, dot3, cross3, v3smul, v3neg,
      v3zero, impingementCutoff, Vec3.mk.injEq]

/-- C7 (amended): with swept sections enabled the local chord is
multiplied by `cos(sweep)` and the lift-coefficient correction applied by
the residual's section evaluation adds exactly
`CLa * aL0 * (1 - 1/cos(sweep))`; the post-solve force/moment integration,
however, applies a different sweep correction — it scales the section
moment coefficient by `1/cos(sweep)` and leaves the stored lift
coefficient unchanged, never calling the lift-coefficient correction. -/
theorem C7_sweep_correction (cBar cosSweep CL CLa aL0 CmNew CDnew : ℚ) :
    sweptChord cBar cosSweep = cBar * cosSweep ∧
    correct_CL_for_sweep CL CLa aL0 (sweepInv cosSweep)
      = CL + CLa * aL0 * (1 - 1 / cosSweep) ∧
    residualSectionCL true CL CLa aL0 (sweepInv cosSweep)
      = correct_CL_for_sweep CL CLa aL0 (sweepInv cosSweep) ∧
    (integrationSweepCoefs true CL CmNew CDnew (sweepInv cosSweep)).Cm
      = CmNew / cosSweep ∧
    (integrationSweepCoefs true CL CmNew CDnew (sweepInv cosSweep)).CL = CL := by
  refine ⟨rfl, ?_, rfl, ?_, rfl⟩
  · simp only [correct_CL_for_sweep, sweepInv]; ring
  · simp only [integrationSweepCoefs, if_pos, sweepInv]; ring

/-- C7 counterexample: with `cos(sweep) = 1/2` (`C_sweep_inv = 2`),
`CLa = 1`, `aL0 = 1`, the residual's section-lift evaluation corrects the
lift coefficient from 5 to 4, while the post-solve integration block
leaves the stored lift coefficient at 5: the correction function is not
applied in the force/moment integration, refuting the claim that the same
correction is applied in both places. -/
theorem C7_integration_counterexample :
    residualSectionCL true 5 1 1 2 = 4 ∧
    correct_CL_for_sweep 5 1 1 2 = 4 ∧
    (integrationSweepCoefs true 5 7 9 2).CL = 5 ∧
    (5 : ℚ) ≠ 4 := by
  refine ⟨?_, ?_, rfl, by norm_num⟩ <;>
    norm_num [residualSectionCL, correct_CL_for_sweep]

/-- C9: on a scene with no aircraft, `solve_forces` raises its
`RuntimeError` before any solving or integration is attempted, whatever
the downstream pipeline would have computed. -/
theorem C9_empty_scene (s : SceneState) (pipeline : SceneState → List ℚ)
    (h : s.numAircraft = 0) :
    solve_forces s pipeline = .error noAircraftMsg := by
  simp only [solve_forces, if_pos h]

/-- C9 witness: the empty scene. -/
theorem C9_empty_scene_witness :
    (SceneState.mk [] 0 0).numAircraft = 0 ∧
    solve_forces ⟨[], 0, 0⟩ (fun _ => []) = .error noAircraftMsg :=
  ⟨rfl, C9_empty_scene ⟨[], 0, 0⟩ (fun _ => []) rfl⟩

/-- C10: removing a missing aircraft name raises a `RuntimeError` and
leaves the scene unchanged; removing a present one decrements the total
control-point count by exactly that aircraft's control-point count and
the aircraft count by one. -/
theorem C10_remove_aircraft (s : SceneState) (name : String) :
    (popAircraft s.airplanes name = none →
      remove_aircraft s name
        = (s, some ("The scene has no aircraft named " ++ name ++ "."))) ∧
    (∀ (cps : ℤ) (rest : List (String × ℤ)),
      popAircraft s.airplanes name = some (cps, rest) →
      remove_aircraft s name
        = ({ airplanes := rest, N := s.N - cps,
             numAircraft := s.numAircraft - 1 }, none)) := by
  constructor
  · intro h; simp only [remove_aircraft, h]
  · intro cps rest h; simp only [remove_aircraft, h]

/-- C10 witness: a missing name leaves a one-aircraft scene untouched and
reports the error; removing `wing` (3 control points) from a two-aircraft
scene with 5 total control points leaves 2 control points and 1 aircraft. -/
theorem C10_remove_aircraft_witness :
    remove_aircraft ⟨[("wing", 3)], 3, 1⟩ "boat"
      = (⟨[("wing", 3)], 3, 1⟩, some ("The scene has no aircraft named " ++ "boat" ++ ".")) ∧
    remove_aircraft ⟨[("wing", 3), ("tail", 2)], 5, 2⟩ "wing"
      = (⟨[("tail", 2)], 5 - 3, 2 - 1⟩, none) :=
  ⟨(C10_remove_aircraft ⟨[("wing", 3)], 3, 1⟩ "boat").1 (by decide),
   (C10_remove_aircraft ⟨[("wing", 3), ("tail", 2)], 5, 2⟩ "wing").2 3
     [("tail", 2)] (by decide)⟩

/-- Loop unfolding, raise branch: with the previous error above tolerance
and the incremented counter reaching `max_iterations`, the pass updates
gamma and raises the not-converged error carrying the solver type and the
residual norm at the updated gamma. -/
theorem nlLoopF_succ_raise (cfg : NLConfig) (fuel : ℕ) (gamma : List ℚ) (e : ℚ)
    (k : ℕ) (h1 : cfg.conv < e) (h2 : cfg.maxIter ≤ k + 1) :
    nlLoopF cfg (fuel + 1) gamma e k
      = { gamma := qvAdd gamma (qvSmul cfg.relax
            (cfg.jacSolve gamma (qvNeg (cfg.residual gamma)))),
          iters := k + 1,
          result := .notConverged
            { solverType := cfg.solverType,
              finalError := cfg.normFn (cfg.residual (qvAdd gamma (qvSmul cfg.relax
                (cfg.jacSolve gamma (qvNeg (cfg.residual gamma)))))) } } := by
  simp only [nlLoopF, if_pos h1, if_pos h2]

/-- Loop unfolding, continuation branch: with the previous error above
tolerance and iterations to spare, the pass updates gamma and loops with
the freshly computed residual norm. -/
theorem nlLoopF_succ_next (cfg : NLConfig) (fuel : ℕ) (gamma : List ℚ) (e : ℚ)
    (k : ℕ) (h1 : cfg.conv < e) (h2 : ¬cfg.maxIter ≤ k + 1) :
    nlLoopF cfg (fuel + 1) gamma e k
      = nlLoopF cfg fuel
          (qvAdd gamma (qvSmul cfg.relax (cfg.jacSolve gamma (qvNeg (cfg.residual gamma)))))
          (cfg.normFn (cfg.residual gamma)) (k + 1) := by
  simp only [nlLoopF, if_pos h1, if_neg h2]

/-- Loop unfolding, converged branch: once the previously computed error
is not above the tolerance, the `while` check fails and the loop exits
normally with the current gamma. -/
theorem nlLoopF_succ_done (cfg : NLConfig) (fuel : ℕ) (gamma : List ℚ) (e : ℚ)
    (k : ℕ) (h1 : ¬cfg.conv < e) :
    nlLoopF cfg (fuel + 1) gamma e k
      = { gamma := gamma, iters := k, result := .converged } := by
  simp only [nlLoopF, if_neg h1]

/-- The loop's final gamma is always a Newton iterate: starting from the
k-th iterate, the outcome's gamma is the iterate indexed by the outcome's
iteration counter. -/
theorem nlLoopF_gamma_iters (cfg : NLConfig) (gamma0 : List ℚ) :
    ∀ (fuel k : ℕ) (e : ℚ),
      (nlLoopF cfg fuel (nlGammaSeq cfg gamma0 k) e k).gamma
        = nlGammaSeq cfg gamma0 (nlLoopF cfg fuel (nlGammaSeq cfg gamma0 k) e k).iters := by
  intro fuel
  induction fuel with
  | zero => intro k e; rfl
  | succ n ih =>
    intro k e
    by_cases h1 : cfg.conv < e
    · by_cases h2 : cfg.maxIter ≤ k + 1
      · rw [nlLoopF_succ_raise cfg n _ e k h1 h2]
        rfl
      · rw [nlLoopF_succ_next cfg n _ e k h1 h2]
        have hG : qvAdd (nlGammaSeq cfg gamma0 k)
            (qvSmul cfg.relax (cfg.jacSolve (nlGammaSeq cfg gamma0 k)
              (qvNeg (cfg.residual (nlGammaSeq cfg gamma0 k)))))
            = nlGammaSeq cfg gamma0 (k + 1) := rfl
        rw [hG]
        exact ih (k + 1) (cfg.normFn (cfg.residual (nlGammaSeq cfg gamma0 k)))
    · rw [nlLoopF_succ_done cfg n _ e k h1]

/-- Characterization of normal (converged) loop exit from the k-th
iterate: the loop exits converged exactly when the entry error is already
at or below the tolerance, or some later iterate's residual norm reaches
the tolerance while at least two iterations remain before the
`max_iterations` raise. -/
theorem nlLoopF_converged_iff (cfg : NLConfig) (gamma0 : List ℚ) :
    ∀ (fuel k : ℕ) (e : ℚ), cfg.maxIter - k < fuel →
      ((nlLoopF cfg fuel (nlGammaSeq cfg gamma0 k) e k).result = NLResult.converged ↔
        (e ≤ cfg.conv ∨
          ∃ m, k ≤ m ∧ m + 1 < cfg.maxIter ∧ nlErr cfg gamma0 m ≤ cfg.conv)) := by
  intro fuel
  induction fuel with
  | zero => intro k e hf; exact absurd hf (by omega)
  | succ n ih =>
    intro k e hf
    by_cases h1 : cfg.conv < e
    · by_cases h2 : cfg.maxIter ≤ k + 1
      · rw [nlLoopF_succ_raise cfg n _ e k h1 h2]
        constructor
        · intro hc; simp at hc
        · rintro (hle | ⟨m, hkm, hmlt, _⟩)
          · exact absurd hle (not_le_of_lt h1)
          · omega
      · rw [nlLoopF_succ_next cfg n _ e k h1 h2]
        have hG : qvAdd (nlGammaSeq cfg gamma0 k)
            (qvSmul cfg.relax (cfg.jacSolve (nlGammaSeq cfg gamma0 k)
              (qvNeg (cfg.residual (nlGammaSeq cfg gamma0 k)))))
            = nlGammaSeq cfg gamma0 (k + 1) := rfl
        rw [hG, ih (k + 1) (cfg.normFn (cfg.residual (nlGammaSeq cfg gamma0 k))) (by omega)]
        constructor
        · rintro (hEk | ⟨m, hm1, hm2, hm3⟩)
          · exact Or.inr ⟨k, le_refl k, by omega, hEk⟩
          · exact Or.inr ⟨m, by omega, hm2, hm3⟩
        · rintro (hle | ⟨m, hm1, hm2, hm3⟩)
          · exact absurd hle (not_le_of_lt h1)
          · rcases Nat.eq_or_lt_of_le hm1 with heq | hlt
            · subst heq; exact Or.inl hm3
            · exact Or.inr ⟨m, by omega, hm2, hm3⟩
    · rw [nlLoopF_succ_done cfg n _ e k h1]
      constructor
      · intro _; exact Or.inl (not_lt.mp h1)
      · intro _; rfl

/-- When the loop raises the not-converged error, its payload is exactly
the solver type and the residual norm at the final (updated) gamma. -/
theorem nlLoopF_payload (cfg : NLConfig) :
    ∀ (fuel : ℕ) (gamma : List ℚ) (e : ℚ) (k : ℕ) (p : NotConvergedPayload),
      (nlLoopF cfg fuel gamma e k).result = NLResult.notConverged p →
      p.solverType = cfg.solverType ∧
      p.finalError = cfg.normFn (cfg.residual (nlLoopF cfg fuel gamma e k).gamma) := by
  intro fuel
  induction fuel with
  | zero => intro g e k p h; exact absurd h (by simp [nlLoopF])
  | succ n ih =>
    intro g e k p h
    by_cases h1 : cfg.conv < e
    · by_cases h2 : cfg.maxIter ≤ k + 1
      · rw [nlLoopF_succ_raise cfg n g e k h1 h2] at h ⊢
        simp only [NLResult.notConverged.injEq] at h
        subst h
        exact ⟨rfl, rfl⟩
      · rw [nlLoopF_succ_next cfg n g e k h1 h2] at h ⊢
        exact ih _ _ _ p h
    · rw [nlLoopF_succ_done cfg n g e k h1] at h
      exact absurd h (by simp)

/-- Full run of the `cfgImmediate` instance: the first pass computes the
zero residual (its norm 0 is below the tolerance 1/2), but the iteration
counter reaches `max_iterations = 1` inside the same pass, so the solver
raises the not-converged error instead of exiting converged. -/
theorem cfgImmediate_run :
    solveNonlinear cfgImmediate [0]
      = { gamma := [0], iters := 1,
          result := .notConverged { solverType := "nonlinear", finalError := 0 } } := by
  rw [solveNonlinear,
    nlLoopF_succ_raise cfgImmediate cfgImmediate.maxIter [0] 100 0
      (by norm_num [cfgImmediate]) (by norm_num [cfgImmediate])]
  norm_num [cfgImmediate, qvAdd, qvSmul, qvNeg, norm1d]

/-- Full run of the `cfgStalled` instance: one pass, then the raise with
final residual norm 1. -/
theorem cfgStalled_run :
    solveNonlinear cfgStalled [0]
      = { gamma := [0], iters := 1,
          result := .notConverged { solverType := "nonlinear", finalError := 1 } } := by
  rw [solveNonlinear,
    nlLoopF_succ_raise cfgStalled cfgStalled.maxIter [0] 100 0
      (by norm_num [cfgStalled]) (by norm_num [cfgStalled])]
  norm_num [cfgStalled, qvAdd, qvSmul, qvNeg, norm1d]

/-- Full run of the `cfgStalled2` instance: two passes, then the raise
with the same payload as `cfgStalled` but after two iterations. -/
theorem cfgStalled2_run :
    solveNonlinear cfgStalled2 [0]
      = { gamma := [0], iters := 2,
          result := .notConverged { solverType := "nonlinear", finalError := 1 } } := by
  rw [solveNonlinear,
    nlLoopF_succ_next cfgStalled2 cfgStalled2.maxIter [0] 100 0
      (by norm_num [cfgStalled2]) (by norm_num [cfgStalled2])]
  have hg : qvAdd [0] (qvSmul cfgStalled2.relax
      (cfgStalled2.jacSolve [0] (qvNeg (cfgStalled2.residual [0])))) = [(0 : ℚ)] := by
    norm_num [cfgStalled2, qvAdd, qvSmul, qvNeg]
  have he : cfgStalled2.normFn (cfgStalled2.residual [0]) = 1 := by
    norm_num [cfgStalled2, norm1d]
  rw [hg, he, show cfgStalled2.maxIter = 1 + 1 from rfl,
    nlLoopF_succ_raise cfgStalled2 1 [0] 1 1 (by norm_num [cfgStalled2])
      (by norm_num [cfgStalled2])]
  norm_num [cfgStalled2, qvAdd, qvSmul, qvNeg, norm1d]

/-- C3 (amended): in every iteration the circulation is updated as
`gamma <- gamma + relaxation * jacSolve(gamma, -R)` with `R` the residual
at the pre-update gamma, the loop's final gamma is the Newton iterate
indexed by the performed iteration count, and (for any tolerance below
the sentinel initial error 100) the loop terminates as converged exactly
when some iterate's residual norm is at or below — not strictly below —
the tolerance with the iteration count still at least two short of
`max_iterations`; reaching `max_iterations` raises even if the residual
norm has just dropped below the tolerance. -/
theorem C3_newton_update_and_termination (cfg : NLConfig) (gamma0 : List ℚ)
    (h100 : cfg.conv < 100) :
    (∀ k, nlGammaSeq cfg gamma0 (k + 1)
        = qvAdd (nlGammaSeq cfg gamma0 k)
            (qvSmul cfg.relax (cfg.jacSolve (nlGammaSeq cfg gamma0 k)
              (qvNeg (cfg.residual (nlGammaSeq cfg gamma0 k)))))) ∧
    (solveNonlinear cfg gamma0).gamma
      = nlGammaSeq cfg gamma0 (solveNonlinear cfg gamma0).iters ∧
    ((solveNonlinear cfg gamma0).result = NLResult.converged ↔
      ∃ m, m + 1 < cfg.maxIter ∧ nlErr cfg gamma0 m ≤ cfg.conv) := by
  refine ⟨fun k => rfl, ?_, ?_⟩
  · exact nlLoopF_gamma_iters cfg gamma0 (cfg.maxIter + 1) 0 100
  · have hiff := nlLoopF_converged_iff cfg gamma0 (cfg.maxIter + 1) 0 100 (by omega)
    constructor
    · intro hc
      rcases hiff.mp hc with h100c | ⟨m, _, hm2, hm3⟩
      · exact absurd h100c (not_le_of_lt h100)
      · exact ⟨m, hm2, hm3⟩
    · rintro ⟨m, hm2, hm3⟩
      exact hiff.mpr (Or.inr ⟨m, Nat.zero_le m, hm2, hm3⟩)

/-- C3 witness: on the `cfgConverging` instance started at the solved
circulation `[0]`, the tolerance is below the sentinel and the solver
terminates as converged (its zeroth iterate's residual norm 0 is at most
the tolerance with two iterations to spare). -/
theorem C3_newton_witness :
    cfgConverging.conv < 100 ∧
    (solveNonlinear cfgConverging [0]).result = NLResult.converged :=
  ⟨by norm_num [cfgConverging],
   (C3_newton_update_and_termination cfgConverging [0]
      (by norm_num [cfgConverging])).2.2.mpr
     ⟨0, by norm_num [cfgConverging], by norm_num [nlErr, nlGammaSeq, norm1d, cfgConverging]⟩⟩

/-- C3 counterexample: on `cfgImmediate` the residual norm at the initial
gamma is 0, strictly below the tolerance 1/2, yet the solver does not
terminate as converged — it raises the not-converged error because the
iteration counter reaches `max_iterations = 1` inside the pass that
computed that below-tolerance norm.  This refutes the claim that the loop
terminates as converged exactly when the residual norm drops below the
tolerance. -/
theorem C3_termination_counterexample :
    norm1d (cfgImmediate.residual [0]) < cfgImmediate.conv ∧
    (solveNonlinear cfgImmediate [0]).result
      = NLResult.notConverged { solverType := "nonlinear", finalError := 0 } := by
  constructor
  · norm_num [cfgImmediate, norm1d]
  · rw [cfgImmediate_run]

/-- C4 (amended): when the nonlinear solve fails, the raised error carries
the solver type and the final residual norm (not the iteration count),
and the disposition is policy-configurable: under `raise` it propagates,
under `warn` a warning is recorded and execution continues with the last
computed gamma, under `ignore` execution continues silently with the last
computed gamma. -/
theorem C4_policy_and_payload (cfg : NLConfig) (gamma0 : List ℚ)
    (dbPolicy : String) (p : NotConvergedPayload)
    (h : (solveNonlinear cfg gamma0).result = NLResult.notConverged p) :
    p.solverType = cfg.solverType ∧
    p.finalError = cfg.normFn (cfg.residual (solveNonlinear cfg gamma0).gamma) ∧
    solveForcesNonlinear ⟨"raise", dbPolicy⟩ cfg gamma0
      = .error (.solverNotConverged p) ∧
    solveForcesNonlinear ⟨"warn", dbPolicy⟩ cfg gamma0
      = .ok ((solveNonlinear cfg gamma0).gamma, [.solverNotConverged p]) ∧
    solveForcesNonlinear ⟨"ignore", dbPolicy⟩ cfg gamma0
      = .ok ((solveNonlinear cfg gamma0).gamma, []) := by
  obtain ⟨h1, h2⟩ := nlLoopF_payload cfg (cfg.maxIter + 1) gamma0 100 0 p h
  refine ⟨h1, h2, ?_, ?_, ?_⟩ <;>
    simp [solveForcesNonlinear, h, handle_error, handleByInstruction]

/-- C4 witness: the failing `cfgStalled` run under the `warn` policy
continues with the last computed gamma and records the warning. -/
theorem C4_policy_witness :
    (solveNonlinear cfgStalled [0]).result
      = NLResult.notConverged { solverType := "nonlinear", finalError := 1 } ∧
    solveForcesNonlinear ⟨"warn", "raise"⟩ cfgStalled [0]
      = .ok ((solveNonlinear cfgStalled [0]).gamma,
          [MUError.solverNotConverged { solverType := "nonlinear", finalError := 1 }]) :=
  ⟨by rw [cfgStalled_run],
   (C4_policy_and_payload cfgStalled [0] "raise"
      { solverType := "nonlinear", finalError := 1 } (by rw [cfgStalled_run])).2.2.2.1⟩

/-- C4 counterexample: the stalled instances with `max_iterations` 1 and 2
raise not-converged errors with identical payloads although the failing
runs performed different numbers of iterations (1 versus 2): the raised
error does not carry the iteration count — the call site passes only the
solver type and the final residual norm. -/
theorem C4_payload_counterexample :
    solveNonlinear cfgStalled [0]
      = { gamma := [0], iters := 1,
          result := .notConverged { solverType := "nonlinear", finalError := 1 } } ∧
    solveNonlinear cfgStalled2 [0]
      = { gamma := [0], iters := 2,
          result := .notConverged { solverType := "nonlinear", finalError := 1 } } :=
  ⟨cfgStalled_run, cfgStalled2_run⟩

/-- C6 (amended): the linear solver's matrix has off-diagonal entries
`-(V * CLa * dS) * (V_ji . u_n)` with `V` the in-plane freestream
magnitude when in-plane projection is enabled and the plain freestream
magnitude otherwise; the diagonal entry additionally carries the
self-term `2 * |v_inf_and_rot x dl|` computed from the
rotation-included velocity (not the plain freestream velocity); the
right-hand side is `V * V * dS * CL` at the initial lift-coefficient
estimate; and the returned circulation is the result of one direct
linear solve of that system. -/
theorem C6_linear_solver_system {N : ℕ} (useInPlane : Bool)
    (Vinf VinfInPlane CLa dS CL : Fin N → ℚ) (Vji : Fin N → Fin N → Vec3)
    (uN : Fin N → Vec3) (vInfAndRot dl : Fin N → Vec3) (normVrotXdl : Fin N → ℚ)
    (linSolve : (Fin N → Fin N → ℚ) → (Fin N → ℚ) → (Fin N → ℚ)) (i j : Fin N)
    (hnorm : IsEuclidNorm (cross3 (vInfAndRot i) (dl i)) (normVrotXdl i)) :
    (i ≠ j → solveLinearA useInPlane Vinf VinfInPlane CLa dS Vji uN normVrotXdl i j
        = -((if useInPlane then VinfInPlane i else Vinf i) * CLa i * dS i)
            * dot3 (Vji i j) (uN i)) ∧
    (solveLinearA useInPlane Vinf VinfInPlane CLa dS Vji uN normVrotXdl i i
        = -((if useInPlane then VinfInPlane i else Vinf i) * CLa i * dS i)
            * dot3 (Vji i i) (uN i) + 2 * normVrotXdl i) ∧
    (0 ≤ normVrotXdl i ∧ normVrotXdl i ^ 2
        = dot3 (cross3 (vInfAndRot i) (dl i)) (cross3 (vInfAndRot i) (dl i))) ∧
    (solveLinearB useInPlane Vinf VinfInPlane dS CL i
        = (if useInPlane then VinfInPlane i else Vinf i)
            * (if useInPlane then VinfInPlane i else Vinf i) * dS i * CL i) ∧
    solveLinearGamma linSolve useInPlane Vinf VinfInPlane CLa dS CL Vji uN normVrotXdl
      = linSolve (solveLinearA useInPlane Vinf VinfInPlane CLa dS Vji uN normVrotXdl)
          (solveLinearB useInPlane Vinf VinfInPlane dS CL) := by
  refine ⟨?_, ?_, hnorm, ?_, rfl⟩
  · intro hij
    cases useInPlane <;> simp [solveLinearA, if_neg hij]
  · cases useInPlane <;> simp [solveLinearA]
  · cases useInPlane <;> simp [solveLinearB]

/-- C6 witness: the amended diagonal formula exercised on a concrete
two-point system with `v_inf_and_rot = (2,0,0)`, `dl = (0,1,0)` and the
genuine norm 2 of their cross product. -/
theorem C6_linear_solver_witness :
    IsEuclidNorm (cross3 ⟨2, 0, 0⟩ ⟨0, 1, 0⟩) 2 ∧
    solveLinearA false (fun _ => 3) (fun _ => 4) (fun _ => 5) (fun _ => 6)
        (fun _ _ => ⟨1, 1, 1⟩) (fun _ => ⟨0, 1, 0⟩) (fun _ => 2) (0 : Fin 2) (0 : Fin 2)
      = -((if false then (4 : ℚ) else 3) * 5 * 6) * dot3 ⟨1, 1, 1⟩ ⟨0, 1, 0⟩ + 2 * 2 :=
  ⟨by norm_num [IsEuclidNorm, cross3, dot3],
   (C6_linear_solver_system false (fun _ => 3) (fun _ => 4) (fun _ => 5) (fun _ => 6)
      (fun _ => 6) (fun _ _ => ⟨1, 1, 1⟩) (fun _ => ⟨0, 1, 0⟩) (fun _ => ⟨2, 0, 0⟩)
      (fun _ => ⟨0, 1, 0⟩) (fun _ => 2) (fun A b => b) (0 : Fin 2) (0 : Fin 2)
      (by norm_num [IsEuclidNorm, cross3, dot3])).2.1⟩

/-- C6 counterexample: with freestream `v_inf = (1,0,0)`, a rigid-rotation
contribution making `v_inf_and_rot = (2,0,0)`, and `dl = (0,1,0)`, the
code's diagonal self-term is `2*|v_inf_and_rot x dl| = 4` while the
spec's formula `2*|V_inf x dl|` gives 2 (`CLa = 0` isolates the
self-term): the assembled matrix differs from the claim's formula, which
uses the plain freestream velocity in the diagonal cross product. -/
theorem C6_diagonal_counterexample :
    IsEuclidNorm (cross3 ⟨2, 0, 0⟩ ⟨0, 1, 0⟩) 2 ∧
    IsEuclidNorm (cross3 ⟨1, 0, 0⟩ ⟨0, 1, 0⟩) 1 ∧
    solveLinearA false (fun _ => 1) (fun _ => 1) (fun _ => 0) (fun _ => 1)
        (fun _ _ => ⟨0, 0, 0⟩) (fun _ => ⟨0, 0, 1⟩) (fun _ => 2) (0 : Fin 1) (0 : Fin 1)
      ≠ specLinearA (fun _ => 1) (fun _ => 0) (fun _ => 1)
          (fun _ _ => ⟨0, 0, 0⟩) (fun _ => ⟨0, 0, 1⟩) (fun _ => 1) (0 : Fin 1) (0 : Fin 1) := by
  refine ⟨⟨by norm_num, by norm_num [cross3, dot3]⟩,
    ⟨by norm_num, by norm_num [cross3, dot3]⟩, ?_⟩
  norm_num [solveLinearA, specLinearA, dot3]

/-- C8: with a free surface and the biplane boundary condition the
completed tensor entry is `1/(4*pi)` times the sum of the real bound,
jointed and trailing contributions plus the image contributions; with a
free surface and no biplane condition (rigid wall) it is the real sum
minus the image contributions; with no free surface it is `1/(4*pi)`
times the real contributions alone (the experimental wave-correction
flag off throughout, its default). -/
theorem C8_tensor_assembly {N : ℕ} (fourPiInv : ℚ)
    (bound j0 j1 due0 due1 due0img vconstimg due1img : Fin N → Fin N → Vec3)
    (wave : Fin N → ℚ) (i j : Fin N) :
    (calcVjiEntry true true false fourPiInv due0
        (fun a b => vjiConstEntry (bound a b) (j0 a b) (j1 a b)) due1
        due0img vconstimg due1img wave i j
      = v3smul fourPiInv
          (v3add (v3add (v3add (v3add (bound i j) (j0 i j)) (j1 i j))
              (v3add (due0 i j) (due1 i j)))
            (v3add (v3add (due0img i j) (vconstimg i j)) (due1img i j)))) ∧
    (calcVjiEntry true false false fourPiInv due0
        (fun a b => vjiConstEntry (bound a b) (j0 a b) (j1 a b)) due1
        due0img vconstimg due1img wave i j
      = v3smul fourPiInv
          (v3sub (v3add (v3add (v3add (bound i j) (j0 i j)) (j1 i j))
              (v3add (due0 i j) (due1 i j)))
            (v3add (v3add (due0img i j) (vconstimg i j)) (due1img i j)))) ∧
    (∀ biplaneBC : Bool, calcVjiEntry false biplaneBC false fourPiInv due0
        (fun a b => vjiConstEntry (bound a b) (j0 a b) (j1 a b)) due1
        due0img vconstimg due1img wave i j
      = v3smul fourPiInv
          (v3add (v3add (v3add (bound i j) (j0 i j)) (j1 i j))
            (v3add (due0 i j) (due1 i j)))) := by
  refine ⟨?_, ?_, fun biplaneBC => ?_⟩ <;>
    simp only [calcVjiEntry, completeVjiEntry, vjiConstEntry, Bool.and_true,
      Bool.and_false, Bool.not_true, Bool.not_false, Bool.false_and, Bool.true_and,
      if_true, if_false, Bool.false_eq_true, ite_false, ite_true] <;>
    apply v3ext <;>
    simp only [v3add, v3sub, v3smul] <;>
    ring

end MachUpHydro
